import Mathlib

/-!
Shallow embedding of `geofencingapp.py` (mosque geofencing app): the
haversine distance calculator, the mosque-data cache store, the cache
freshness policy, the prayer-alarm translator, and the next-prayer
selection, together with proofs about them.

Modelling conventions:
* Python floats are modelled as real numbers (`ℝ`).
* `datetime.date` values are modelled by the `Date` structure; Python
  compares dates lexicographically by (year, month, day).  The cache
  stores the date as `str(date)` and parses it back with
  `strptime('%Y-%m-%d')`, an exact round trip, so the record holds the
  `Date` directly.
* Prayer times (`datetime.strptime(t, "%H:%M")` values, all on the same
  dummy date) are modelled as minutes, as `Int` so that subtracting the
  alarm buffer can cross midnight into the previous day.
* The durable cache file is modelled by an explicit state
  `Option (Except PyError CacheData)`: `none` is "file does not exist",
  `some (.error e)` is a file whose contents make `json.load` raise, and
  `some (.ok d)` is a file holding valid JSON for record `d`.
* A Python function that can raise is embedded as returning
  `Except PyError _`.
-/

/-- Python exceptions that the embedded fragments can raise. -/
inductive PyError
  | attributeError
  | jsonDecodeError
  | valueError
deriving DecidableEq

/-- Python `datetime.date`: calendar date, compared lexicographically. -/
structure Date where
  year : Nat
  month : Nat
  day : Nat
deriving DecidableEq

/-- Python date comparison `a < b`: lexicographic on (year, month, day). -/
def dateLt (a b : Date) : Bool :=
  a.year < b.year ||
    (a.year == b.year &&
      (a.month < b.month || (a.month == b.month && a.day < b.day)))

/-- One element of the cached mosque list (name, lat, lon). -/
structure Mosque where
  name : String
  lat : ℝ
  lon : ℝ

/-- The cache record written by `cache_mosque_data`: mosque list, the
coordinate of the last fetch, and the date of the last update. -/
structure CacheData where
  mosques : List Mosque
  last_lat : ℝ
  last_lon : ℝ
  last_update : Date

/-- The durable cache file: `none` when the file does not exist, otherwise
the outcome of `json.load` on its contents. -/
abbrev FileState := Option (Except PyError CacheData)

/-- Constant `UPDATE_DISTANCE = 20000` (meters, source line 14). -/
def UPDATE_DISTANCE : ℝ := 20000

/-- Constant `PRAYER_BUFFER_MINUTES = 5` (source line 15). -/
def PRAYER_BUFFER_MINUTES : Int := 5

/-- Python `math.radians`: degrees to radians, `x * pi / 180`. -/
noncomputable def radians (x : ℝ) : ℝ := x * Real.pi / 180

/-- Python `math.atan2 y x`: the angle of the point `(x, y)`, by cases on
the signs of `x` and `y` exactly as the C library function computes it. -/
noncomputable def atan2 (y x : ℝ) : ℝ :=
  if 0 < x then Real.arctan (y / x)
  else if x < 0 then
    if 0 ≤ y then Real.arctan (y / x) + Real.pi
    else Real.arctan (y / x) - Real.pi
  else
    if 0 < y then Real.pi / 2
    else if y < 0 then -(Real.pi / 2)
    else 0

/-- The intermediate `a` of `haversine` (source line 23):
`sin(dlat/2)**2 + cos(radians(lat1)) * cos(radians(lat2)) * sin(dlon/2)**2`. -/
noncomputable def hav_a (lat1 lon1 lat2 lon2 : ℝ) : ℝ :=
  Real.sin (radians (lat2 - lat1) / 2) ^ 2 +
    Real.cos (radians lat1) * Real.cos (radians lat2) *
      Real.sin (radians (lon2 - lon1) / 2) ^ 2

/-- `haversine` (source lines 19-26): great-circle distance on a sphere of
radius `R = 6371.0` km, `c = 2 * atan2(sqrt(a), sqrt(1 - a))`, returned in
meters (`R * c * 1000`). -/
noncomputable def haversine (lat1 lon1 lat2 lon2 : ℝ) : ℝ :=
  6371.0 *
    (2 * atan2 (Real.sqrt (hav_a lat1 lon1 lat2 lon2))
      (Real.sqrt (1 - hav_a lat1 lon1 lat2 lon2))) * 1000

/-- `cache_mosque_data` (source lines 66-74): overwrite the cache file with
the mosque list, the fetch coordinate, and today's date.  The ambient
`datetime.now().date()` is the explicit `today` parameter. -/
def cache_mosque_data (mosques : List Mosque) (lat lon : ℝ) (today : Date)
    (_fs : FileState) : FileState :=
  some (Except.ok ⟨mosques, lat, lon, today⟩)

/-- `load_cached_mosque_data` (source lines 77-81): if the cache file
exists, return `json.load`'s result (which raises on corrupt contents);
otherwise return `None`. -/
def load_cached_mosque_data (fs : FileState) : Except PyError (Option CacheData) :=
  match fs with
  | none => Except.ok none
  | some (Except.ok d) => Except.ok (some d)
  | some (Except.error e) => Except.error e

/-- `should_update_cache` (source lines 84-100).  The ambient
`datetime.now().date()` is the explicit `today` parameter.  When
`cached_data` is `None` (a missing cache), Python evaluates
`None.get("last_lat")` and raises `AttributeError`. -/
noncomputable def should_update_cache (current_lat current_lon : ℝ) (today : Date)
    (cached_data : Option CacheData) : Except PyError Bool :=
  match cached_data with
  | none => Except.error PyError.attributeError
  | some cd =>
    if haversine current_lat current_lon cd.last_lat cd.last_lon > UPDATE_DISTANCE then
      Except.ok true
    else if dateLt cd.last_update today then
      Except.ok true
    else
      Except.ok false

/-- The loop body of `schedule_prayer_alarms` with the buffer as an explicit
parameter: each prayer gets an alarm at `time - timedelta(minutes = buffer)`. -/
def schedule_prayer_alarms_with (buffer : Int) (prayer_times : List (String × Int)) :
    List (String × Int) :=
  prayer_times.map (fun x => (x.1, x.2 - buffer))

/-- `schedule_prayer_alarms` (source lines 103-111): alarms 5 minutes
(`PRAYER_BUFFER_MINUTES`) before each prayer.  The returned list is the
sequence of `(prayer, alarm_time)` pairs the loop schedules (prints). -/
def schedule_prayer_alarms (prayer_times : List (String × Int)) : List (String × Int) :=
  schedule_prayer_alarms_with PRAYER_BUFFER_MINUTES prayer_times

/-- Python `min` over the items seen so far, keyed by the time component:
keeps the first element whose time is minimal (later elements replace the
current best only when strictly smaller). -/
def min_by_time (best : String × Int) : List (String × Int) → String × Int
  | [] => best
  | x :: xs => min_by_time (if x.2 < best.2 then x else best) xs

/-- The next-prayer selection of `fetch_prayer_times_and_schedule_alarms`
(source line 164): `min(prayer_times, key=lambda p: prayer_times[p])`, the
entry with the globally minimum time, ignoring the current time; Python
`min` raises `ValueError` on an empty mapping. -/
def next_prayer (prayer_times : List (String × Int)) : Except PyError (String × Int) :=
  match prayer_times with
  | [] => Except.error PyError.valueError
  | x :: xs => Except.ok (min_by_time x xs)

/-- Modelled from the spec: `next_event(schedule)` as §4.4 requires — the
entry with the minimum time strictly greater than `now` when one exists,
otherwise the entry with the globally minimum time (wrap to next day).
This behaviour is absent from the source, which uses `next_prayer` above. -/
def next_event_spec (now : Int) (sched : List (String × Int)) : Option (String × Int) :=
  match sched.filter (fun x => now < x.2) with
  | y :: ys => some (min_by_time y ys)
  | [] =>
    match sched with
    | [] => none
    | x :: xs => some (min_by_time x xs)

/-! ### Helper lemmas about `haversine` -/

lemma hav_a_self (lat lon : ℝ) : hav_a lat lon lat lon = 0 := by
  unfold hav_a radians
  simp

lemma haversine_self (lat lon : ℝ) : haversine lat lon lat lon = 0 := by
  unfold haversine
  rw [hav_a_self]
  simp [atan2]

lemma hav_a_comm (lat1 lon1 lat2 lon2 : ℝ) :
    hav_a lat1 lon1 lat2 lon2 = hav_a lat2 lon2 lat1 lon1 := by
  unfold hav_a
  have h1 : radians (lat1 - lat2) / 2 = -(radians (lat2 - lat1) / 2) := by
    unfold radians; ring
  have h2 : radians (lon1 - lon2) / 2 = -(radians (lon2 - lon1) / 2) := by
    unfold radians; ring
  rw [h1, h2, Real.sin_neg, Real.sin_neg]
  ring

lemma haversine_comm (lat1 lon1 lat2 lon2 : ℝ) :
    haversine lat1 lon1 lat2 lon2 = haversine lat2 lon2 lat1 lon1 := by
  unfold haversine
  rw [hav_a_comm lat1 lon1 lat2 lon2]

lemma hav_a_antipodal : hav_a 0 0 0 180 = 1 := by
  unfold hav_a radians
  norm_num

lemma haversine_antipodal : haversine 0 0 0 180 = 6371.0 * (2 * (Real.pi / 2)) * 1000 := by
  unfold haversine
  rw [hav_a_antipodal]
  norm_num [atan2]

lemma haversine_antipodal_gt : UPDATE_DISTANCE < haversine 0 0 0 180 := by
  rw [haversine_antipodal]
  have h := Real.pi_gt_three
  unfold UPDATE_DISTANCE
  nlinarith

/-! ### Claim theorems -/

/-- C1: the spec says a missing cache record forces a refresh
(`needs_refresh` returns true); the code instead raises `AttributeError`
because `should_update_cache` calls `.get` on `None`. -/
theorem C1_missing_record_raises (current_lat current_lon : ℝ) (today : Date) :
    should_update_cache current_lat current_lon today none =
      Except.error PyError.attributeError := rfl

/-- C3: with a record present, movement at most `UPDATE_DISTANCE` (20 000 m)
and today not strictly later than the record's fetch date (which covers a
fetch date in the future), `should_update_cache` returns false. -/
theorem C3_fresh_cache_no_refresh (current_lat current_lon : ℝ) (today : Date)
    (cd : CacheData)
    (h1 : haversine current_lat current_lon cd.last_lat cd.last_lon ≤ UPDATE_DISTANCE)
    (h2 : dateLt cd.last_update today = false) :
    should_update_cache current_lat current_lon today (some cd) = Except.ok false := by
  simp only [should_update_cache]
  rw [if_neg (not_lt.mpr h1)]
  simp [h2]

/-- Witness for C3: unchanged coordinate (distance 0) and same date. -/
theorem C3_witness :
    haversine 10 20 10 20 ≤ UPDATE_DISTANCE ∧
    dateLt ⟨2024, 5, 1⟩ ⟨2024, 5, 1⟩ = false ∧
    should_update_cache 10 20 ⟨2024, 5, 1⟩ (some ⟨[], 10, 20, ⟨2024, 5, 1⟩⟩) =
      Except.ok false := by
  have hd : haversine 10 20 10 20 ≤ UPDATE_DISTANCE := by
    rw [haversine_self]; unfold UPDATE_DISTANCE; norm_num
  exact ⟨hd, by decide, C3_fresh_cache_no_refresh 10 20 ⟨2024, 5, 1⟩ ⟨[], 10, 20, ⟨2024, 5, 1⟩⟩ hd (by decide)⟩

/-- C4: with a record present, movement beyond `UPDATE_DISTANCE` (20 000 m)
forces a refresh regardless of the date. -/
theorem C4_moved_far_forces_refresh (current_lat current_lon : ℝ) (today : Date)
    (cd : CacheData)
    (h : UPDATE_DISTANCE < haversine current_lat current_lon cd.last_lat cd.last_lon) :
    should_update_cache current_lat current_lon today (some cd) = Except.ok true := by
  simp only [should_update_cache]
  rw [if_pos h]

/-- Witness for C4: from (0,0) to (0,180), half the circumference,
far beyond 20 000 m, with the fetch date equal to today. -/
theorem C4_witness :
    UPDATE_DISTANCE < haversine 0 0 0 180 ∧
    should_update_cache 0 0 ⟨2024, 5, 1⟩ (some ⟨[], 0, 180, ⟨2024, 5, 1⟩⟩) =
      Except.ok true :=
  ⟨haversine_antipodal_gt,
    C4_moved_far_forces_refresh 0 0 ⟨2024, 5, 1⟩ ⟨[], 0, 180, ⟨2024, 5, 1⟩⟩
      haversine_antipodal_gt⟩

/-- C5: with a record present and today strictly later than the record's
fetch date, `should_update_cache` returns true for any coordinates, in
particular for zero movement. -/
theorem C5_date_advanced_forces_refresh (current_lat current_lon : ℝ) (today : Date)
    (cd : CacheData) (h : dateLt cd.last_update today = true) :
    should_update_cache current_lat current_lon today (some cd) = Except.ok true := by
  simp only [should_update_cache]
  by_cases hd : haversine current_lat current_lon cd.last_lat cd.last_lon > UPDATE_DISTANCE
  · rw [if_pos hd]
  · rw [if_neg hd]
    simp [h]

/-- Witness for C5: identical coordinates, date advanced by one day. -/
theorem C5_witness :
    dateLt ⟨2024, 5, 1⟩ ⟨2024, 5, 2⟩ = true ∧
    should_update_cache 10 20 ⟨2024, 5, 2⟩ (some ⟨[], 10, 20, ⟨2024, 5, 1⟩⟩) =
      Except.ok true :=
  ⟨by decide,
    C5_date_advanced_forces_refresh 10 20 ⟨2024, 5, 2⟩ ⟨[], 10, 20, ⟨2024, 5, 1⟩⟩
      (by decide)⟩

/-- C6: `haversine` is exactly symmetric in its two coordinates (which is
stronger than the claimed 1e-6 relative tolerance) and is exactly 0 on a
pair of identical coordinates. -/
theorem C6_symmetry_and_self :
    (∀ lat1 lon1 lat2 lon2 : ℝ,
        haversine lat1 lon1 lat2 lon2 = haversine lat2 lon2 lat1 lon1) ∧
    (∀ lat lon : ℝ, haversine lat lon lat lon = 0) :=
  ⟨haversine_comm, haversine_self⟩

/-- C8: for every lead and schedule, the alarm translator keeps the label
sequence unchanged (so each label appears exactly once when the input
labels are unique), maps each entry's time to time minus the lead (plain
integer-minute arithmetic, so a lead larger than the time-of-day wraps
into the previous day instead of erroring; the input list is not
mutated — the translator is a pure map), and on the schedule
{Fajr: 05:00, Dhuhr: 12:15} with the 5-minute lead produces
{Fajr: 04:55, Dhuhr: 12:10}. -/
theorem C8_alarms_are_time_minus_lead (lead : Int) (sched : List (String × Int)) :
    (schedule_prayer_alarms_with lead sched).map Prod.fst = sched.map Prod.fst ∧
    (∀ p t, (p, t) ∈ sched → (p, t - lead) ∈ schedule_prayer_alarms_with lead sched) ∧
    schedule_prayer_alarms [("Fajr", 300), ("Dhuhr", 735)] =
      [("Fajr", 295), ("Dhuhr", 730)] := by
  refine ⟨?_, ?_, rfl⟩
  · simp [schedule_prayer_alarms_with]
  · intro p t h
    exact List.mem_map.mpr ⟨(p, t), h, rfl⟩

/-- Witness for C8: the Fajr entry of the example schedule is translated
to an alarm five minutes earlier. -/
theorem C8_witness :
    (("Fajr", (300 : Int)) ∈ [("Fajr", (300 : Int)), ("Dhuhr", 735)]) ∧
    (("Fajr", (295 : Int)) ∈
      schedule_prayer_alarms_with 5 [("Fajr", (300 : Int)), ("Dhuhr", 735)]) := by
  refine ⟨by simp, ?_⟩
  have h := (C8_alarms_are_time_minus_lead 5 [("Fajr", (300 : Int)), ("Dhuhr", 735)]).2.1
    "Fajr" 300 (by simp)
  simpa using h

/-- C9 counterexample: a cache file whose contents make `json.load` raise
is fatal to `load_cached_mosque_data` — the call propagates the parse
error instead of returning `None`. -/
theorem C9_counterexample :
    load_cached_mosque_data (some (Except.error PyError.jsonDecodeError)) =
      Except.error PyError.jsonDecodeError ∧
    load_cached_mosque_data (some (Except.error PyError.jsonDecodeError)) ≠
      Except.ok none :=
  ⟨rfl, by simp [load_cached_mosque_data]⟩

/-- C9 (amended): `load_cached_mosque_data` returns `None` when no cache
file exists, returns the stored record when it parses, and raises when the
stored record is corrupt (corruption is not recovered to `None`). -/
theorem C9_load_contract :
    load_cached_mosque_data none = Except.ok none ∧
    (∀ d : CacheData, load_cached_mosque_data (some (Except.ok d)) = Except.ok (some d)) ∧
    (∀ e : PyError, load_cached_mosque_data (some (Except.error e)) = Except.error e) :=
  ⟨rfl, fun _ => rfl, fun _ => rfl⟩

/-- C10: saving a record and immediately loading returns exactly the
record that was saved (mosque list, fetch coordinate, fetch date). -/
theorem C10_save_load_round_trip (mosques : List Mosque) (lat lon : ℝ) (today : Date)
    (fs : FileState) :
    load_cached_mosque_data (cache_mosque_data mosques lat lon today fs) =
      Except.ok (some ⟨mosques, lat, lon, today⟩) := rfl

/-- C2: the code's next-prayer selection is the global minimum-time entry
with no comparison against the current time.  At 06:00 (360 minutes) on
the schedule {Fajr: 05:00, Dhuhr: 12:15} it returns Fajr, an entry that
has already passed, while the specified `next_event` returns Dhuhr, the
minimal entry strictly after now. -/
theorem C2_next_prayer_ignores_now :
    next_prayer [("Fajr", 300), ("Dhuhr", 735)] = Except.ok ("Fajr", 300) ∧
    next_event_spec 360 [("Fajr", 300), ("Dhuhr", 735)] = some ("Dhuhr", 735) ∧
    (300 : Int) < 360 := by
  refine ⟨rfl, ?_, by norm_num⟩
  rfl

/-! ### Numerical bounds for `haversine` at the Riyadh/Jeddah reference
points (claim C7), via the quartic Taylor bounds on `sin` and `cos`. -/

lemma sin_ge_lb (t l u : ℝ) (h0 : 0 ≤ l) (hl : l ≤ t) (hu : t ≤ u) (h1 : u ≤ 1) :
    l - l ^ 3 / 6 - u ^ 4 * (5 / 96) ≤ Real.sin t := by
  have ht0 : 0 ≤ t := h0.trans hl
  have ht : |t| ≤ 1 := by rw [abs_of_nonneg ht0]; exact hu.trans h1
  have hb := Real.sin_bound ht
  rw [abs_of_nonneg ht0, abs_sub_le_iff] at hb
  have htu4 : t ^ 4 ≤ u ^ 4 := pow_le_pow_left ht0 hu 4
  have ht1 : t ≤ 1 := hu.trans h1
  have hl1 : l ≤ 1 := hl.trans ht1
  have key : 0 ≤ (t - l) * (6 - (t ^ 2 + t * l + l ^ 2)) := by
    apply mul_nonneg (by linarith)
    have h2 : t ^ 2 ≤ 1 := by nlinarith
    have h3 : l ^ 2 ≤ 1 := by nlinarith
    have h4 : t * l ≤ 1 := by nlinarith
    linarith
  nlinarith [hb.2, key, htu4]

lemma sin_le_ub (t l u : ℝ) (h0 : 0 ≤ l) (hl : l ≤ t) (hu : t ≤ u) (h1 : u ≤ 1) :
    Real.sin t ≤ u - u ^ 3 / 6 + u ^ 4 * (5 / 96) := by
  have ht0 : 0 ≤ t := h0.trans hl
  have ht : |t| ≤ 1 := by rw [abs_of_nonneg ht0]; exact hu.trans h1
  have hb := Real.sin_bound ht
  rw [abs_of_nonneg ht0, abs_sub_le_iff] at hb
  have htu4 : t ^ 4 ≤ u ^ 4 := pow_le_pow_left ht0 hu 4
  have ht1 : t ≤ 1 := hu.trans h1
  have key : 0 ≤ (u - t) * (6 - (u ^ 2 + u * t + t ^ 2)) := by
    apply mul_nonneg (by linarith)
    have h2 : u ^ 2 ≤ 1 := by nlinarith
    have h3 : t ^ 2 ≤ 1 := by nlinarith
    have h4 : u * t ≤ 1 := by nlinarith
    linarith
  nlinarith [hb.1, key, htu4]

lemma cos_ge_lb (t l u : ℝ) (h0 : 0 ≤ l) (hl : l ≤ t) (hu : t ≤ u) (h1 : u ≤ 1) :
    1 - u ^ 2 / 2 - u ^ 4 * (5 / 96) ≤ Real.cos t := by
  have ht0 : 0 ≤ t := h0.trans hl
  have ht : |t| ≤ 1 := by rw [abs_of_nonneg ht0]; exact hu.trans h1
  have hb := Real.cos_bound ht
  rw [abs_of_nonneg ht0, abs_sub_le_iff] at hb
  have htu4 : t ^ 4 ≤ u ^ 4 := pow_le_pow_left ht0 hu 4
  have htu2 : t ^ 2 ≤ u ^ 2 := pow_le_pow_left ht0 hu 2
  nlinarith [hb.2, htu4, htu2]

lemma cos_le_ub (t l u : ℝ) (h0 : 0 ≤ l) (hl : l ≤ t) (hu : t ≤ u) (h1 : u ≤ 1) :
    Real.cos t ≤ 1 - l ^ 2 / 2 + u ^ 4 * (5 / 96) := by
  have ht0 : 0 ≤ t := h0.trans hl
  have ht : |t| ≤ 1 := by rw [abs_of_nonneg ht0]; exact hu.trans h1
  have hb := Real.cos_bound ht
  rw [abs_of_nonneg ht0, abs_sub_le_iff] at hb
  have htu4 : t ^ 4 ≤ u ^ 4 := pow_le_pow_left ht0 hu 4
  have htl2 : l ^ 2 ≤ t ^ 2 := pow_le_pow_left h0 hl 2
  nlinarith [hb.1, htu4, htl2]

set_option maxHeartbeats 800000 in
lemma rj_s1_bounds :
    (0.028163 : ℝ) ≤ Real.sin (3.2278 / 360 * Real.pi) ∧
    Real.sin (3.2278 / 360 * Real.pi) ≤ 0.028165 := by
  have hp1 : (3.141592 : ℝ) < Real.pi := Real.pi_gt_d6
  have hp2 : Real.pi < 3.141593 := Real.pi_lt_d6
  have htl : (0.028167 : ℝ) ≤ 3.2278 / 360 * Real.pi := by linarith
  have htu : (3.2278 / 360 : ℝ) * Real.pi ≤ 0.028168 := by linarith
  constructor
  · have h := sin_ge_lb (3.2278 / 360 * Real.pi) 0.028167 0.028168 (by norm_num) htl htu
      (by norm_num)
    linarith
  · have h := sin_le_ub (3.2278 / 360 * Real.pi) 0.028167 0.028168 (by norm_num) htl htu
      (by norm_num)
    linarith

set_option maxHeartbeats 800000 in
lemma rj_s2_bounds :
    (0.065251 : ℝ) ≤ Real.sin (7.4828 / 360 * Real.pi) ∧
    Real.sin (7.4828 / 360 * Real.pi) ≤ 0.065255 := by
  have hp1 : (3.141592 : ℝ) < Real.pi := Real.pi_gt_d6
  have hp2 : Real.pi < 3.141593 := Real.pi_lt_d6
  have htl : (0.065299 : ℝ) ≤ 7.4828 / 360 * Real.pi := by linarith
  have htu : (7.4828 / 360 : ℝ) * Real.pi ≤ 0.065300 := by linarith
  constructor
  · have h := sin_ge_lb (7.4828 / 360 * Real.pi) 0.065299 0.065300 (by norm_num) htl htu
      (by norm_num)
    linarith
  · have h := sin_le_ub (7.4828 / 360 * Real.pi) 0.065299 0.065300 (by norm_num) htl htu
      (by norm_num)
    linarith

set_option maxHeartbeats 800000 in
lemma rj_c1_bounds :
    (0.905172 : ℝ) ≤ Real.cos (24.7136 / 180 * Real.pi) ∧
    Real.cos (24.7136 / 180 * Real.pi) ≤ 0.908779 := by
  have hp1 : (3.141592 : ℝ) < Real.pi := Real.pi_gt_d6
  have hp2 : Real.pi < 3.141593 := Real.pi_lt_d6
  have htl : (0.431333 : ℝ) ≤ 24.7136 / 180 * Real.pi := by linarith
  have htu : (24.7136 / 180 : ℝ) * Real.pi ≤ 0.431334 := by linarith
  constructor
  · have h := cos_ge_lb (24.7136 / 180 * Real.pi) 0.431333 0.431334 (by norm_num) htl htu
      (by norm_num)
    linarith
  · have h := cos_le_ub (24.7136 / 180 * Real.pi) 0.431333 0.431334 (by norm_num) htl htu
      (by norm_num)
    linarith

set_option maxHeartbeats 800000 in
lemma rj_c2_bounds :
    (0.928658 : ℝ) ≤ Real.cos (21.4858 / 180 * Real.pi) ∧
    Real.cos (21.4858 / 180 * Real.pi) ≤ 0.930719 := by
  have hp1 : (3.141592 : ℝ) < Real.pi := Real.pi_gt_d6
  have hp2 : Real.pi < 3.141593 := Real.pi_lt_d6
  have htl : (0.374997 : ℝ) ≤ 21.4858 / 180 * Real.pi := by linarith
  have htu : (21.4858 / 180 : ℝ) * Real.pi ≤ 0.374998 := by linarith
  constructor
  · have h := cos_ge_lb (21.4858 / 180 * Real.pi) 0.374997 0.374998 (by norm_num) htl htu
      (by norm_num)
    linarith
  · have h := cos_le_ub (21.4858 / 180 * Real.pi) 0.374997 0.374998 (by norm_num) htl htu
      (by norm_num)
    linarith

set_option maxHeartbeats 800000 in
lemma riyadh_jeddah_a_bounds :
    (4371 / 10 ^ 6 : ℝ) ≤ hav_a 24.7136 46.6753 21.4858 39.1925 ∧
    hav_a 24.7136 46.6753 21.4858 39.1925 ≤ 4396 / 10 ^ 6 := by
  obtain ⟨hs1a, hs1b⟩ := rj_s1_bounds
  obtain ⟨hs2a, hs2b⟩ := rj_s2_bounds
  obtain ⟨hc1a, hc1b⟩ := rj_c1_bounds
  obtain ⟨hc2a, hc2b⟩ := rj_c2_bounds
  have e1 : radians (21.4858 - 24.7136) / 2 = -(3.2278 / 360 * Real.pi) := by
    unfold radians; ring
  have e2 : radians (39.1925 - 46.6753) / 2 = -(7.4828 / 360 * Real.pi) := by
    unfold radians; ring
  have e3 : radians 24.7136 = 24.7136 / 180 * Real.pi := by unfold radians; ring
  have e4 : radians 21.4858 = 21.4858 / 180 * Real.pi := by unfold radians; ring
  have hs1pos : (0 : ℝ) ≤ Real.sin (3.2278 / 360 * Real.pi) := le_trans (by norm_num) hs1a
  have hs2pos : (0 : ℝ) ≤ Real.sin (7.4828 / 360 * Real.pi) := le_trans (by norm_num) hs2a
  have hc1pos : (0 : ℝ) ≤ Real.cos (24.7136 / 180 * Real.pi) := le_trans (by norm_num) hc1a
  unfold hav_a
  rw [e1, e2, e3, e4, Real.sin_neg, Real.sin_neg, neg_sq, neg_sq]
  have hsq1l : (0.028163 : ℝ) ^ 2 ≤ Real.sin (3.2278 / 360 * Real.pi) ^ 2 :=
    pow_le_pow_left₀ (by norm_num) hs1a 2
  have hsq1u : Real.sin (3.2278 / 360 * Real.pi) ^ 2 ≤ (0.028165 : ℝ) ^ 2 :=
    pow_le_pow_left₀ hs1pos hs1b 2
  have hsq2l : (0.065251 : ℝ) ^ 2 ≤ Real.sin (7.4828 / 360 * Real.pi) ^ 2 :=
    pow_le_pow_left₀ (by norm_num) hs2a 2
  have hsq2u : Real.sin (7.4828 / 360 * Real.pi) ^ 2 ≤ (0.065255 : ℝ) ^ 2 :=
    pow_le_pow_left₀ hs2pos hs2b 2
  have hccl : (0.905172 : ℝ) * 0.928658 ≤
      Real.cos (24.7136 / 180 * Real.pi) * Real.cos (21.4858 / 180 * Real.pi) :=
    mul_le_mul hc1a hc2a (by norm_num) hc1pos
  have hccu : Real.cos (24.7136 / 180 * Real.pi) * Real.cos (21.4858 / 180 * Real.pi) ≤
      (0.908779 : ℝ) * 0.930719 :=
    mul_le_mul hc1b hc2b (le_trans (by norm_num) hc2a) (by norm_num)
  have hccpos : (0 : ℝ) ≤
      Real.cos (24.7136 / 180 * Real.pi) * Real.cos (21.4858 / 180 * Real.pi) :=
    le_trans (by norm_num) hccl
  have hprodl : (0.905172 : ℝ) * 0.928658 * ((0.065251 : ℝ) ^ 2) ≤
      Real.cos (24.7136 / 180 * Real.pi) * Real.cos (21.4858 / 180 * Real.pi) *
        Real.sin (7.4828 / 360 * Real.pi) ^ 2 :=
    mul_le_mul hccl hsq2l (by norm_num) hccpos
  have hprodu : Real.cos (24.7136 / 180 * Real.pi) * Real.cos (21.4858 / 180 * Real.pi) *
        Real.sin (7.4828 / 360 * Real.pi) ^ 2 ≤
      (0.908779 : ℝ) * 0.930719 * ((0.065255 : ℝ) ^ 2) :=
    mul_le_mul hccu hsq2u (sq_nonneg _) (by norm_num)
  constructor
  · have hnum : (4371 / 10 ^ 6 : ℝ) ≤
        (0.028163 : ℝ) ^ 2 + (0.905172 : ℝ) * 0.928658 * ((0.065251 : ℝ) ^ 2) := by
      norm_num
    linarith
  · have hnum : (0.028165 : ℝ) ^ 2 + (0.908779 : ℝ) * 0.930719 * ((0.065255 : ℝ) ^ 2) ≤
        (4396 / 10 ^ 6 : ℝ) := by
      norm_num
    linarith

set_option maxHeartbeats 800000 in
lemma tan_lb_0666 : (0.06646 : ℝ) ≤ Real.tan 0.0666 := by
  have hs := sin_ge_lb 0.0666 0.0666 0.0666 (by norm_num) le_rfl le_rfl (by norm_num)
  have hcu := cos_le_ub 0.0666 0.0666 0.0666 (by norm_num) le_rfl le_rfl (by norm_num)
  have hcl := cos_ge_lb 0.0666 0.0666 0.0666 (by norm_num) le_rfl le_rfl (by norm_num)
  have hcpos : (0 : ℝ) < Real.cos 0.0666 := by linarith
  rw [Real.tan_eq_sin_div_cos, le_div_iff hcpos]
  linarith

set_option maxHeartbeats 800000 in
lemma tan_ub_0661 : Real.tan 0.0661 ≤ 0.06625 := by
  have hsu := sin_le_ub 0.0661 0.0661 0.0661 (by norm_num) le_rfl le_rfl (by norm_num)
  have hcl := cos_ge_lb 0.0661 0.0661 0.0661 (by norm_num) le_rfl le_rfl (by norm_num)
  have hcpos : (0 : ℝ) < Real.cos 0.0661 := by linarith
  rw [Real.tan_eq_sin_div_cos, div_le_iff hcpos]
  linarith

lemma haversine_arctan_form (lat1 lon1 lat2 lon2 : ℝ)
    (h1 : hav_a lat1 lon1 lat2 lon2 < 1) :
    haversine lat1 lon1 lat2 lon2 =
      6371.0 * (2 * Real.arctan (Real.sqrt (hav_a lat1 lon1 lat2 lon2) /
        Real.sqrt (1 - hav_a lat1 lon1 lat2 lon2))) * 1000 := by
  unfold haversine atan2
  rw [if_pos (Real.sqrt_pos.mpr (by linarith))]

set_option maxHeartbeats 1000000 in
/-- C7: `haversine` computes the spherical great-circle distance with
radius 6371.0 km and returns meters; between Riyadh (24.7136, 46.6753) and
Jeddah (21.4858, 39.1925) the result lies within 1% of the published
850 km (between 841 500 m and 858 500 m). -/
theorem C7_riyadh_jeddah_distance :
    (841500 : ℝ) ≤ haversine 24.7136 46.6753 21.4858 39.1925 ∧
    haversine 24.7136 46.6753 21.4858 39.1925 ≤ 858500 := by
  obtain ⟨hal, hau⟩ := riyadh_jeddah_a_bounds
  have hlt1 : hav_a 24.7136 46.6753 21.4858 39.1925 < 1 :=
    lt_of_le_of_lt hau (by norm_num)
  rw [haversine_arctan_form _ _ _ _ hlt1]
  set A := hav_a 24.7136 46.6753 21.4858 39.1925 with hA
  have hsub : (0 : ℝ) < 1 - A := by linarith
  have hsqpos : 0 < Real.sqrt (1 - A) := Real.sqrt_pos.mpr hsub
  have hru : Real.sqrt A / Real.sqrt (1 - A) ≤ 0.06646 := by
    rw [div_le_iff hsqpos]
    have h1 : (0.06646 : ℝ) * Real.sqrt (1 - A) =
        Real.sqrt ((0.06646 : ℝ) ^ 2 * (1 - A)) := by
      rw [Real.sqrt_mul (by norm_num : (0 : ℝ) ≤ (0.06646 : ℝ) ^ 2),
        Real.sqrt_sq (by norm_num : (0 : ℝ) ≤ (0.06646 : ℝ))]
    rw [h1]
    exact Real.sqrt_le_sqrt (by nlinarith)
  have hrl : (0.06625 : ℝ) ≤ Real.sqrt A / Real.sqrt (1 - A) := by
    rw [le_div_iff hsqpos]
    have h1 : (0.06625 : ℝ) * Real.sqrt (1 - A) =
        Real.sqrt ((0.06625 : ℝ) ^ 2 * (1 - A)) := by
      rw [Real.sqrt_mul (by norm_num : (0 : ℝ) ≤ (0.06625 : ℝ) ^ 2),
        Real.sqrt_sq (by norm_num : (0 : ℝ) ≤ (0.06625 : ℝ))]
    rw [h1]
    exact Real.sqrt_le_sqrt (by nlinarith)
  have hpi := Real.pi_gt_d6
  have hatu : Real.arctan (Real.sqrt A / Real.sqrt (1 - A)) ≤ 0.0666 := by
    have h2 : Real.arctan (Real.sqrt A / Real.sqrt (1 - A)) ≤
        Real.arctan (Real.tan 0.0666) :=
      Real.arctan_strictMono.monotone (le_trans hru tan_lb_0666)
    rwa [Real.arctan_tan (by linarith) (by linarith)] at h2
  have hatl : (0.0661 : ℝ) ≤ Real.arctan (Real.sqrt A / Real.sqrt (1 - A)) := by
    have h2 : Real.arctan (Real.tan 0.0661) ≤
        Real.arctan (Real.sqrt A / Real.sqrt (1 - A)) :=
      Real.arctan_strictMono.monotone (le_trans tan_ub_0661 hrl)
    rwa [Real.arctan_tan (by linarith) (by linarith)] at h2
  constructor
  · nlinarith [hatl]
  · nlinarith [hatu]
